import Mathlib

unseal Rat.mul Rat.inv Rat.add Rat.sub

/-!
Shallow embedding of the core of `opensky-flight-analytics`:
the transform/aggregate pipeline (`src/etl/data_pipeline.py`) and the
OpenSky API client (`src/api/opensky_client.py`).

Conventions of the embedding:
* Python floats are modelled as rationals (`ℚ`); `NaN`/missing values as
  `Option`; a pandas `DataFrame` as a `List` of records.
* Python exceptions are modelled with `Except`; the network is passed in
  as an explicit prepared response.
-/

namespace OpenSky

/-- Conversion factor meters → feet, the literal `3.28084` of
`transform_states`. -/
def ftPerM : ℚ := 328084 / 100000

/-- Conversion factor m/s → knots, the literal `1.94384` of
`transform_states`. -/
def ktPerMs : ℚ := 194384 / 100000

/-- The raw columns of one state vector that the pipeline reads.
Nullable numeric columns are `Option ℚ`; the aircraft `category` code is an
`Option Int` (it can be missing/NaN in a general DataFrame). -/
structure RawState where
  icao24 : String
  callsign : String
  origin_country : String
  longitude : Option ℚ
  latitude : Option ℚ
  baro_altitude : Option ℚ
  on_ground : Bool
  velocity : Option ℚ
  category : Option Int
deriving DecidableEq

/-- One row of the (possibly enriched) DataFrame flowing through the
pipeline: the raw columns plus the columns `transform_states` adds.
Columns not yet added are `none`. -/
structure PipelineRow where
  raw : RawState
  altitude_ft : Option ℚ := none
  speed_knots : Option ℚ := none
  altitude_category : Option String := none
  speed_category : Option String := none
  aircraft_type : Option String := none
deriving DecidableEq

/-- A raw, un-enriched row. -/
def mkRow (r : RawState) : PipelineRow := { raw := r }

/-- Semantics of `pd.cut(v, bins, labels)` with the default
`right=True, include_lowest=False`: the bins are the left-open right-closed
intervals `(edges[i], edges[i+1]]`; a value in no bin gets `NaN` (`none`). -/
def cut : List ℚ → List String → ℚ → Option String
  | lo :: hi :: es, lab :: labs, v =>
      if lo < v ∧ v ≤ hi then some lab else cut (hi :: es) labs v
  | _, _, _ => none

/-- The fixed altitude bin edges of `transform_states`. -/
def altitudeBins : List ℚ := [0, 10000, 20000, 30000, 45000, 100000]

/-- The fixed altitude labels of `transform_states`. -/
def altitudeLabels : List String := ["Low", "Medium", "High", "Very High", "Extreme"]

/-- The fixed speed bin edges of `transform_states`. -/
def speedBins : List ℚ := [0, 200, 350, 500, 1000]

/-- The fixed speed labels of `transform_states`. -/
def speedLabels : List String := ["Slow", "Medium", "Fast", "Very Fast"]

/-- The fixed 21-entry aircraft category code table of `transform_states`. -/
def aircraft_types : Int → Option String
  | 0 => some "No Info Available"
  | 1 => some "No ADS-B Info"
  | 2 => some "Light (<15.5k lbs)"
  | 3 => some "Small (15.5k-75k lbs)"
  | 4 => some "Large (75k-300k lbs)"
  | 5 => some "High Vortex Large (B-757)"
  | 6 => some "Heavy (>300k lbs)"
  | 7 => some "High Performance"
  | 8 => some "Rotorcraft"
  | 9 => some "Glider"
  | 10 => some "Lighter-than-air"
  | 11 => some "Parachutist"
  | 12 => some "Ultralight"
  | 13 => some "Reserved"
  | 14 => some "UAV"
  | 15 => some "Space Vehicle"
  | 16 => some "Emergency Vehicle"
  | 17 => some "Service Vehicle"
  | 18 => some "Point Obstacle"
  | 19 => some "Cluster Obstacle"
  | 20 => some "Line Obstacle"
  | _ => none

/-- `df['category'].map(aircraft_types).fillna('Unknown')` for one row:
a missing code maps to NaN, an unmapped code maps to NaN, and `fillna`
turns NaN into `"Unknown"`. -/
def aircraftTypeOf : Option Int → String
  | none => "Unknown"
  | some k => (aircraft_types k).getD "Unknown"

/-- Step 2 of `transform_states`: derive `altitude_ft` and `speed_knots`
from `baro_altitude` and `velocity` (a NaN source yields a NaN result). -/
def derive_units (r : PipelineRow) : PipelineRow :=
  { r with
    altitude_ft := r.raw.baro_altitude.map (fun b => b * ftPerM),
    speed_knots := r.raw.velocity.map (fun w => w * ktPerMs) }

/-- Step 3 of `transform_states`:
`dropna(subset=['latitude','longitude','velocity','baro_altitude'])`. -/
def has_core_fields (r : PipelineRow) : Bool :=
  r.raw.latitude.isSome && r.raw.longitude.isSome &&
    r.raw.velocity.isSome && r.raw.baro_altitude.isSome

/-- Step 4 of `transform_states`:
`speed_knots.fillna(0).clip(lower=1)` and `altitude_ft.fillna(0)`. -/
def fill_floor (r : PipelineRow) : PipelineRow :=
  { r with
    speed_knots := some (max (r.speed_knots.getD 0) 1),
    altitude_ft := some (r.altitude_ft.getD 0) }

/-- Step 5 of `transform_states`: `pd.cut` categorisation of altitude and
speed (cutting a NaN yields NaN). -/
def categorize (r : PipelineRow) : PipelineRow :=
  { r with
    altitude_category := r.altitude_ft.bind (cut altitudeBins altitudeLabels),
    speed_category := r.speed_knots.bind (cut speedBins speedLabels) }

/-- Step 6 of `transform_states`: look up `aircraft_type` from the
`category` code. -/
def label_type (r : PipelineRow) : PipelineRow :=
  { r with aircraft_type := some (aircraftTypeOf r.raw.category) }

/-- `FlightDataPipeline.transform_states`: the empty fast path, the
`on_ground` filter, the unit derivations, the load-bearing `dropna`, the
null-fill/floor, the two categorisations and the type lookup, in source
order. -/
def transform_states (df : List PipelineRow) : List PipelineRow :=
  if df.isEmpty then df
  else
    (((df.filter (fun r => !r.raw.on_ground)).map derive_units).filter
        has_core_fields).map (fun r => label_type (categorize (fill_floor r)))

/-- The per-row enrichment performed by `transform_states` on rows that
survive both filters. -/
def enrich (r : PipelineRow) : PipelineRow :=
  label_type (categorize (fill_floor (derive_units r)))

/-- Worker for `first_occurrences`, carrying the set of keys already seen. -/
def firstOccsGo (seen : List String) : List String → List String
  | [] => []
  | k :: ks => if k ∈ seen then firstOccsGo seen ks else k :: firstOccsGo (k :: seen) ks

/-- The distinct values of a column in first-occurrence order (the distinct
values underlying `Series.nunique` and `Series.value_counts`). -/
def first_occurrences (l : List String) : List String :=
  firstOccsGo [] l

/-- Descending-count order on `(value, count)` pairs. -/
def countGE (a b : String × Nat) : Prop := b.2 ≤ a.2

instance : DecidableRel countGE := fun a b => inferInstanceAs (Decidable (b.2 ≤ a.2))

instance : IsTotal (String × Nat) countGE := ⟨fun a b => Nat.le_total b.2 a.2⟩

instance : IsTrans (String × Nat) countGE := ⟨fun _ _ _ h1 h2 => Nat.le_trans h2 h1⟩

/-- `Series.value_counts().to_dict()`: one entry per distinct observed
value with its multiplicity, ordered by descending count. The source does
not pin a tie-break; this embedding fixes the stable first-occurrence
order the spec describes. NaN values are not counted, so callers pass the
present (`some`) values only. -/
def value_counts (keys : List String) : List (String × Nat) :=
  List.insertionSort countGE ((first_occurrences keys).map (fun k => (k, keys.count k)))

/-- Adjacent-pairs check that a `(value, count)` list is ordered by
descending (non-increasing) count. -/
def isSortedDesc : List (String × Nat) → Bool
  | [] => true
  | [_] => true
  | p :: q :: rest => decide (q.2 ≤ p.2) && isSortedDesc (q :: rest)

/-- The summary dictionary built by `aggregate_metrics` on non-empty
input. -/
structure Metrics where
  total_flights : Nat
  countries : Nat
  avg_altitude_ft : ℚ
  avg_speed_knots : ℚ
  max_altitude_ft : ℚ
  max_speed_knots : ℚ
  flights_by_country : List (String × Nat)
  flights_by_altitude : List (String × Nat)
  flights_by_type : List (String × Nat)
deriving DecidableEq

/-- `Series.mean()` over the present values of a column (pandas skips
NaN; on enriched input every value is present, so the caller passes the
`some` values). -/
def qmean (xs : List ℚ) : ℚ := xs.sum / xs.length

/-- `FlightDataPipeline.aggregate_metrics`: `{}` (here `none`) on empty
input, otherwise the summary record. Only `flights_by_country` is capped
with `.head(10)`; the altitude and type breakdowns are full
`value_counts` results. (For the categorical `altitude_category` column
pandas would also list never-occurring labels with count 0; the embedding
counts observed labels, which differs only in zero-count entries and in
no claim below.) -/
def aggregate_metrics (df : List PipelineRow) : Option Metrics :=
  if df.isEmpty then none
  else some {
    total_flights := df.length,
    countries := (first_occurrences (df.map (fun r => r.raw.origin_country))).length,
    avg_altitude_ft := qmean (df.filterMap (fun r => r.altitude_ft)),
    avg_speed_knots := qmean (df.filterMap (fun r => r.speed_knots)),
    max_altitude_ft := (df.filterMap (fun r => r.altitude_ft)).foldr max 0,
    max_speed_knots := (df.filterMap (fun r => r.speed_knots)).foldr max 0,
    flights_by_country := (value_counts (df.map (fun r => r.raw.origin_country))).take 10,
    flights_by_altitude := value_counts (df.filterMap (fun r => r.altitude_category)),
    flights_by_type := value_counts (df.filterMap (fun r => r.aircraft_type)) }

/-- One JSON cell of a raw state-vector row from the server. -/
inductive Cell where
  | str (s : String)
  | num (q : ℚ)
  | boolean (b : Bool)
  | null
deriving DecidableEq

/-- `df['callsign'].str.strip()`: strips a string cell; a non-string cell
becomes NaN (`null`). -/
def strip_cell : Cell → Cell
  | .str s => .str s.trim
  | _ => .null

/-- `astype(bool)` on one cell: Python truthiness. (`bool(float('nan'))`
is `True`, hence `null ↦ true`.) -/
def truthy_cell : Cell → Bool
  | .str s => s != ""
  | .num q => q != 0
  | .boolean b => b
  | .null => true

/-- One row of the DataFrame returned by `OpenSkyClient.get_states`:
the 17 base state-vector columns, the `category` column (bound from the
row or defaulted), and the `request_time` column added from the response
`time` field. -/
structure StateRecord where
  icao24 : Cell
  callsign : Cell
  origin_country : Cell
  time_position : Cell
  last_contact : Cell
  longitude : Cell
  latitude : Cell
  baro_altitude : Cell
  on_ground : Bool
  velocity : Cell
  true_track : Cell
  vertical_rate : Cell
  sensors : Cell
  geo_altitude : Cell
  squawk : Cell
  spi : Cell
  position_source : Cell
  category : Cell
  request_time : Int
deriving DecidableEq

/-- Positional column binding of one raw row under the schema selected by
`numColumns`, with the `get_states` cleaning steps: callsign stripped,
`on_ground` coerced to boolean, and `category` bound from the 18th
element when `numColumns = 18`, else defaulted to the integer `0` by
`df['category'] = 0`. -/
def bind_row (numColumns : Nat) (reqTime : Int) (row : List Cell) : StateRecord where
  icao24 := row.getD 0 .null
  callsign := strip_cell (row.getD 1 .null)
  origin_country := row.getD 2 .null
  time_position := row.getD 3 .null
  last_contact := row.getD 4 .null
  longitude := row.getD 5 .null
  latitude := row.getD 6 .null
  baro_altitude := row.getD 7 .null
  on_ground := truthy_cell (row.getD 8 .null)
  velocity := row.getD 9 .null
  true_track := row.getD 10 .null
  vertical_rate := row.getD 11 .null
  sensors := row.getD 12 .null
  geo_altitude := row.getD 13 .null
  squawk := row.getD 14 .null
  spi := row.getD 15 .null
  position_source := row.getD 16 .null
  category := if numColumns == 18 then row.getD 17 .null else .num 0
  request_time := reqTime

/-- `OpenSkyClient.get_states` response handling: a null/absent or empty
`states` array yields an empty DataFrame; otherwise the width of the
first row selects the schema (17 base columns, or 18 with `category`
appended) for every row. -/
def get_states (statesData : Option (List (List Cell))) (reqTime : Int) :
    List StateRecord :=
  match statesData with
  | none => []
  | some [] => []
  | some states =>
      let numColumns := (states.headD []).length
      states.map (bind_row numColumns reqTime)

/-- The parsed JSON body of a successful token-endpoint response;
`expires_in` may be absent. -/
structure TokenResponse where
  access_token : String
  expires_in : Option ℚ
deriving DecidableEq

/-- The client's mutable token cache: the fields `access_token` and
`token_expires_at`, both initially `None`. -/
structure ClientState where
  access_token : Option String
  token_expires_at : Option ℚ
deriving DecidableEq

/-- The failures the client can raise: a failed token request
(`response.raise_for_status()` on the POST), the explicit rate-limit
exception for a 429 data response, and `raise_for_status()` on any other
error data response. -/
inductive ApiError where
  | authFailure (status : Nat)
  | rateLimited (retryAfter : Int)
  | httpError (status : Nat)
deriving DecidableEq

/-- Python truthiness of the cached `access_token` field
(`None` and `""` are falsy). -/
def truthy_token : Option String → Bool
  | none => false
  | some s => s != ""

/-- Python truthiness of the cached `token_expires_at` field
(`None` and `0.0` are falsy). -/
def truthy_expiry : Option ℚ → Bool
  | none => false
  | some q => q != 0

/-- The fetch branch of `_get_access_token`: POST the client-credentials
grant; on failure propagate, on success cache the token with expiry
`now + expires_in − 300` (with `expires_in` defaulting to 1800) and
return it. The `Bool` records that a network request was made. -/
def fetch_token (now : ℚ) (tokenEndpoint : Except Nat TokenResponse) :
    Except ApiError (String × ClientState × Bool) :=
  match tokenEndpoint with
  | .error status => .error (.authFailure status)
  | .ok td =>
      let expiresAt := now + td.expires_in.getD 1800 - 300
      .ok (td.access_token, ⟨some td.access_token, some expiresAt⟩, true)

/-- `OpenSkyClient._get_access_token`: return the cached token when both
cache fields are truthy and `now < token_expires_at`, else fetch. The
result is the returned token, the cache after the call, and whether a
network request was made. -/
def get_access_token (st : ClientState) (now : ℚ)
    (tokenEndpoint : Except Nat TokenResponse) :
    Except ApiError (String × ClientState × Bool) :=
  if truthy_token st.access_token && truthy_expiry st.token_expires_at &&
      decide (now < st.token_expires_at.getD 0) then
    .ok (st.access_token.getD "", st, false)
  else
    fetch_token now tokenEndpoint

/-- A prepared HTTP response for the data GET: status code, the parsed
`X-Rate-Limit-Retry-After-Seconds` header when present, and the parsed
body. -/
structure HttpResponse (β : Type) where
  status : Nat
  retryAfterHeader : Option Int
  body : β
deriving DecidableEq

/-- `OpenSkyClient._make_request`: acquire a token (propagating its
failure before any GET), issue one GET, raise the rate-limit error on a
429 with the header value defaulting to 60, `raise_for_status()` on any
other 4xx/5xx, else return the body. The `Nat` counts the data GETs
issued: the client never retries. -/
def make_request {β : Type} (tokenResult : Except ApiError String)
    (resp : HttpResponse β) : Except ApiError β × Nat :=
  match tokenResult with
  | .error e => (.error e, 0)
  | .ok _ =>
      if resp.status == 429 then
        (.error (.rateLimited (resp.retryAfterHeader.getD 60)), 1)
      else if 400 ≤ resp.status then
        (.error (.httpError resp.status), 1)
      else
        (.ok resp.body, 1)

/-- One flat JSON object of the `/flights/...` endpoints. -/
abbrev FlightRecord : Type := List (String × Cell)

/-- `OpenSkyClient.get_flights_interval`: `try` the authenticated GET;
any exception is swallowed into an empty DataFrame; a falsy (null or
empty) body also yields an empty DataFrame. The body of the response
models the parsed JSON array, `none` standing for `null`. -/
def get_flights_interval (tokenResult : Except ApiError String)
    (_begin_ts _end_ts : Int) (resp : HttpResponse (Option (List FlightRecord))) :
    List FlightRecord :=
  match (make_request tokenResult resp).1 with
  | .error _ => []
  | .ok none => []
  | .ok (some rows) => if rows.isEmpty then [] else rows

/-- `OpenSkyClient.get_arrivals`: same pattern as `get_flights_interval`
against the arrivals endpoint. -/
def get_arrivals (tokenResult : Except ApiError String) (_airport : String)
    (_begin_ts _end_ts : Int) (resp : HttpResponse (Option (List FlightRecord))) :
    List FlightRecord :=
  match (make_request tokenResult resp).1 with
  | .error _ => []
  | .ok none => []
  | .ok (some rows) => if rows.isEmpty then [] else rows

/-- `OpenSkyClient.get_departures`: same pattern as
`get_flights_interval` against the departures endpoint. -/
def get_departures (tokenResult : Except ApiError String) (_airport : String)
    (_begin_ts _end_ts : Int) (resp : HttpResponse (Option (List FlightRecord))) :
    List FlightRecord :=
  match (make_request tokenResult resp).1 with
  | .error _ => []
  | .ok none => []
  | .ok (some rows) => if rows.isEmpty then [] else rows

/-- A concrete airborne raw row whose derived `altitude_ft` is exactly
10000 (its `baro_altitude` is `10000 / 3.28084` meters). -/
def rawA : RawState :=
  { icao24 := "a1b2c3", callsign := "UAL1", origin_country := "United States",
    longitude := some (-100), latitude := some 40,
    baro_altitude := some (1000000000 / 328084), on_ground := false,
    velocity := some 100, category := some 3 }

/-- A concrete airborne raw row whose derived `altitude_ft` is exactly 0. -/
def rawB : RawState :=
  { rawA with icao24 := "d4e5f6", baro_altitude := some 0 }

/-- A family of concrete airborne raw rows differing only in their
aircraft `category` code. -/
def rawCat (k : Int) : RawState :=
  { icao24 := "c0ffee", callsign := "DAL2", origin_country := "United States",
    longitude := some 10, latitude := some 50, baro_altitude := some 100,
    on_ground := false, velocity := some 100, category := some k }

/-- Eleven concrete raw rows with eleven distinct aircraft category
codes. -/
def raws11 : List PipelineRow :=
  [mkRow (rawCat 0), mkRow (rawCat 1), mkRow (rawCat 2), mkRow (rawCat 3),
   mkRow (rawCat 4), mkRow (rawCat 5), mkRow (rawCat 6), mkRow (rawCat 7),
   mkRow (rawCat 8), mkRow (rawCat 9), mkRow (rawCat 10)]

/-- A concrete raw server row with the full 18-column extended schema. -/
def row18 : List Cell :=
  [.str "abc123", .str " UAL1 ", .str "United States", .num 1, .num 2,
   .num (-100), .num 40, .num 3000, .boolean false, .num 250, .num 90,
   .num 0, .null, .num 3100, .str "7700", .boolean false, .num 0, .num 4]

/-- The same row truncated to the 17-column base schema. -/
def row17 : List Cell := row18.take 17

/-! ### Structure of `transform_states` -/

theorem enrich_raw (r : PipelineRow) : (enrich r).raw = r.raw := rfl

theorem enrich_enrich (r : PipelineRow) : enrich (enrich r) = enrich r := rfl

theorem transform_states_eq (df : List PipelineRow) :
    transform_states df =
      ((df.filter (fun r => !r.raw.on_ground)).filter has_core_fields).map enrich := by
  unfold transform_states
  rcases df with _ | ⟨a, l⟩
  · rfl
  · rw [if_neg (by simp)]
    rw [List.filter_map derive_units, List.map_map]
    have h1 : has_core_fields ∘ derive_units = has_core_fields := funext fun r => rfl
    have h2 : ((fun r => label_type (categorize (fill_floor r))) ∘ derive_units) = enrich :=
      funext fun r => rfl
    rw [h1, h2]

theorem mem_transform_states {df : List PipelineRow} {r : PipelineRow}
    (hr : r ∈ transform_states df) :
    ∃ r₀ ∈ df, r₀.raw.on_ground = false ∧ has_core_fields r₀ = true ∧ r = enrich r₀ := by
  rw [transform_states_eq] at hr
  rcases List.mem_map.1 hr with ⟨r₀, hmem, hre⟩
  rcases List.mem_filter.1 hmem with ⟨hmem2, hcore⟩
  rcases List.mem_filter.1 hmem2 with ⟨hmem3, hair⟩
  exact ⟨r₀, hmem3, by simpa using hair, hcore, hre.symm⟩

/-- Claim C6: `transform_states` is idempotent — applying it to its own
output drops no further rows and does not convert units a second time,
for every input row set. -/
theorem C6_transform_idempotent (df : List PipelineRow) :
    transform_states (transform_states df) = transform_states df := by
  rw [transform_states_eq df, transform_states_eq]
  set l := (df.filter (fun r => !r.raw.on_ground)).filter has_core_fields with hl
  have hair : ∀ a ∈ l, (!a.raw.on_ground) = true := by
    intro a ha
    exact (List.mem_filter.1 (List.mem_filter.1 ha).1).2
  have hcore : ∀ a ∈ l, has_core_fields a = true := by
    intro a ha
    exact (List.mem_filter.1 ha).2
  rw [List.filter_map enrich, List.filter_map enrich, List.map_map]
  have e1 : ((fun r => !r.raw.on_ground) ∘ enrich) = (fun r => !r.raw.on_ground) :=
    funext fun r => rfl
  have e2 : has_core_fields ∘ enrich = has_core_fields := funext fun r => rfl
  have e3 : enrich ∘ enrich = enrich := funext enrich_enrich
  rw [e1, e2, e3]
  rw [List.filter_eq_self.2 hair, List.filter_eq_self.2 hcore]

/-- Claim C7: every record output by `transform_states` is airborne
(`on_ground = false`), has non-null latitude, longitude, velocity and
barometric altitude (so an input row with a null latitude never appears
in the output), and carries `altitude_ft = baro_altitude * 3.28084` and
`speed_knots = velocity * 1.94384` floored at 1, hence
`speed_knots ≥ 1`. -/
theorem C7_transform_output (df : List PipelineRow) (r : PipelineRow)
    (hr : r ∈ transform_states df) :
    r.raw.on_ground = false ∧
    r.raw.latitude.isSome = true ∧
    r.raw.longitude.isSome = true ∧
    r.raw.velocity.isSome = true ∧
    r.raw.baro_altitude.isSome = true ∧
    (∀ b : ℚ, r.raw.baro_altitude = some b → r.altitude_ft = some (b * ftPerM)) ∧
    (∀ w : ℚ, r.raw.velocity = some w → r.speed_knots = some (max (w * ktPerMs) 1)) ∧
    (∀ s : ℚ, r.speed_knots = some s → 1 ≤ s) := by
  obtain ⟨r₀, _hmem, hg, hcore, hre⟩ := mem_transform_states hr
  simp only [has_core_fields, Bool.and_eq_true] at hcore
  obtain ⟨⟨⟨hlat, hlon⟩, hvel⟩, hbaro⟩ := hcore
  subst hre
  refine ⟨hg, hlat, hlon, hvel, hbaro, ?_, ?_, ?_⟩
  · intro b hb
    rw [enrich_raw] at hb
    show some (((r₀.raw.baro_altitude.map (fun b => b * ftPerM)).getD 0)) = some (b * ftPerM)
    rw [hb]; rfl
  · intro w hw
    rw [enrich_raw] at hw
    show some (max ((r₀.raw.velocity.map (fun w => w * ktPerMs)).getD 0) 1) =
      some (max (w * ktPerMs) 1)
    rw [hw]; rfl
  · intro s hs
    have : s = max ((r₀.raw.velocity.map (fun w => w * ktPerMs)).getD 0) 1 := by
      have hs' : some (max ((r₀.raw.velocity.map (fun w => w * ktPerMs)).getD 0) 1) = some s := hs
      exact (Option.some.injEq _ _ ▸ hs').symm
    rw [this]
    exact le_max_right _ _

/-- Claim C7 witness: the invariants hold on the concrete transformed row
`enrich (mkRow rawA)`. -/
theorem C7_transform_output_witness :
    enrich (mkRow rawA) ∈ transform_states [mkRow rawA] ∧
    ((enrich (mkRow rawA)).raw.on_ground = false ∧
     (enrich (mkRow rawA)).raw.latitude.isSome = true ∧
     (enrich (mkRow rawA)).raw.longitude.isSome = true ∧
     (enrich (mkRow rawA)).raw.velocity.isSome = true ∧
     (enrich (mkRow rawA)).raw.baro_altitude.isSome = true ∧
     (∀ b : ℚ, (enrich (mkRow rawA)).raw.baro_altitude = some b →
        (enrich (mkRow rawA)).altitude_ft = some (b * ftPerM)) ∧
     (∀ w : ℚ, (enrich (mkRow rawA)).raw.velocity = some w →
        (enrich (mkRow rawA)).speed_knots = some (max (w * ktPerMs) 1)) ∧
     (∀ s : ℚ, (enrich (mkRow rawA)).speed_knots = some s → 1 ≤ s)) :=
  ⟨by decide, C7_transform_output [mkRow rawA] (enrich (mkRow rawA)) (by decide)⟩

/-- Claim C1 counterexample: on the code's `pd.cut` semantics a
transformed record with `altitude_ft = 10000` gets `altitude_category =
'Low'` (not `'Medium'`), and one with `altitude_ft = 0` is left unlabeled
(not `'Low'`). -/
theorem C1_boundary_counterexample :
    (transform_states [mkRow rawA, mkRow rawB]).map (fun r => r.altitude_ft) =
      [some 10000, some 0] ∧
    (transform_states [mkRow rawA, mkRow rawB]).map (fun r => r.altitude_category) =
      [some "Low", none] ∧
    (some "Low" : Option String) ≠ some "Medium" ∧
    (none : Option String) ≠ some "Low" :=
  ⟨by decide, by decide, by decide, by decide⟩

/-- Claim C1 (amended): the categorical binning is left-exclusive and
right-inclusive at every edge including the top bin — a transformed
record with `altitude_ft = v` is labeled by the bin `(lo, hi]` containing
`v` (so `v = 10000` gets `'Low'` and `v = 0` falls outside every bin and
is left unlabeled, as are all values outside `(0, 100000]`). -/
theorem C1_altitude_binning (df : List PipelineRow) (r : PipelineRow)
    (hr : r ∈ transform_states df) (v : ℚ) (hv : r.altitude_ft = some v) :
    r.altitude_category =
      (if 0 < v ∧ v ≤ 10000 then some "Low"
       else if 10000 < v ∧ v ≤ 20000 then some "Medium"
       else if 20000 < v ∧ v ≤ 30000 then some "High"
       else if 30000 < v ∧ v ≤ 45000 then some "Very High"
       else if 45000 < v ∧ v ≤ 100000 then some "Extreme"
       else none) := by
  obtain ⟨r₀, _hmem, _hg, _hcore, hre⟩ := mem_transform_states hr
  subst hre
  have ha : (enrich r₀).altitude_category =
      (enrich r₀).altitude_ft.bind (cut altitudeBins altitudeLabels) := rfl
  rw [ha, hv]
  show cut altitudeBins altitudeLabels v = _
  simp only [altitudeBins, altitudeLabels, cut]

/-- Claim C1 witness: evaluating the amended binning at the concrete
transformed record with `altitude_ft = 10000` yields `'Low'`. -/
theorem C1_altitude_binning_witness :
    (enrich (mkRow rawA)).altitude_category = some "Low" :=
  (C1_altitude_binning [mkRow rawA] (enrich (mkRow rawA)) (by decide) 10000
      (by decide)).trans (by decide)

/-! ### Ordering of the `value_counts` breakdowns -/

theorem isSortedDesc_of_sorted {l : List (String × Nat)}
    (h : List.Sorted countGE l) : isSortedDesc l = true := by
  induction l with
  | nil => rfl
  | cons p t ih =>
      cases t with
      | nil => rfl
      | cons q t' =>
          rcases List.sorted_cons.1 h with ⟨h1, h2⟩
          have ht := ih h2
          have hpq : q.2 ≤ p.2 := h1 q (List.mem_cons_self q t')
          simp [isSortedDesc, hpq, ht]

theorem value_counts_sorted (keys : List String) :
    List.Sorted countGE (value_counts keys) :=
  List.sorted_insertionSort countGE _

theorem isSortedDesc_take (n : Nat) {l : List (String × Nat)}
    (h : List.Sorted countGE l) : isSortedDesc (l.take n) = true :=
  isSortedDesc_of_sorted (List.Pairwise.sublist (List.take_sublist n l) h)

/-- Claim C2 counterexample: on eleven enriched records with eleven
distinct aircraft category codes, the aircraft-type breakdown of
`aggregate_metrics` has 11 entries — it is not capped at 10. -/
theorem C2_counterexample :
    ((aggregate_metrics (transform_states raws11)).map
        (fun m => m.flights_by_type.length)).getD 0 = 11 ∧
    ¬ (11 ≤ 10) :=
  ⟨by decide, by decide⟩

/-- Claim C2 (amended): for every non-empty enriched record set,
`aggregate_metrics` returns a summary whose country breakdown has at most
10 entries (the `.head(10)` top 10), while the altitude-category and
aircraft-type breakdowns contain one entry per distinct observed value
(and may exceed 10 entries); all three breakdowns are ordered by
descending count. -/
theorem C2_breakdowns (df : List PipelineRow) (hne : df ≠ []) :
    ((aggregate_metrics df).map (fun m => m.flights_by_country.length)).getD 0 ≤ 10 ∧
    ((aggregate_metrics df).map (fun m => isSortedDesc m.flights_by_country)).getD true = true ∧
    ((aggregate_metrics df).map (fun m => isSortedDesc m.flights_by_altitude)).getD true = true ∧
    ((aggregate_metrics df).map (fun m => isSortedDesc m.flights_by_type)).getD true = true := by
  have hne' : df.isEmpty = false := by simpa [List.isEmpty_iff] using hne
  unfold aggregate_metrics
  rw [hne']
  simp only [Bool.false_eq_true, if_false, Option.map_some', Option.getD_some]
  refine ⟨?_, ?_, ?_, ?_⟩
  · exact List.length_take_le 10 _
  · exact isSortedDesc_take 10 (value_counts_sorted _)
  · exact isSortedDesc_of_sorted (value_counts_sorted _)
  · exact isSortedDesc_of_sorted (value_counts_sorted _)

/-- Claim C2 witness: the amended breakdown properties evaluated on the
concrete eleven-record enriched set. -/
theorem C2_breakdowns_witness :
    transform_states raws11 ≠ [] ∧
    (((aggregate_metrics (transform_states raws11)).map
        (fun m => m.flights_by_country.length)).getD 0 ≤ 10 ∧
     ((aggregate_metrics (transform_states raws11)).map
        (fun m => isSortedDesc m.flights_by_country)).getD true = true ∧
     ((aggregate_metrics (transform_states raws11)).map
        (fun m => isSortedDesc m.flights_by_altitude)).getD true = true ∧
     ((aggregate_metrics (transform_states raws11)).map
        (fun m => isSortedDesc m.flights_by_type)).getD true = true) :=
  ⟨by decide, C2_breakdowns (transform_states raws11) (by decide)⟩

/-- Claim C3 counterexample: `aggregate_metrics` on the empty input
returns the empty dictionary `{}` — there is no summary record, hence no
`total_flights` field at all, let alone one equal to 0. -/
theorem C3_counterexample :
    aggregate_metrics [] = none ∧
    (aggregate_metrics []).map Metrics.total_flights ≠ some 0 :=
  ⟨rfl, by decide⟩

/-- Claim C3 (amended): on the empty input `aggregate_metrics` takes the
early-return branch and yields the empty summary `{}` (carrying no
`total_flights` key); no mean — and hence no division — is computed for
it, so no division-by-zero can occur. -/
theorem C3_empty_aggregate : aggregate_metrics [] = none := rfl

/-! ### API client claims -/

/-- Claim C4: the width of the first fetched row decides the schema —
with 18 columns every record's `category` field is the row's 18th
element; with 17 columns no category comes from the row and every
record's `category` is the default `0`. -/
theorem C4_column_binding (states : List (List Cell)) (t : Int) (row : List Cell)
    (hne : states ≠ []) :
    ((states.headD []).length = 18 →
        get_states (some states) t = states.map (bind_row 18 t) ∧
        (bind_row 18 t row).category = row.getD 17 Cell.null) ∧
    ((states.headD []).length = 17 →
        get_states (some states) t = states.map (bind_row 17 t) ∧
        (bind_row 17 t row).category = Cell.num 0) := by
  rcases states with _ | ⟨s, ss⟩
  · exact absurd rfl hne
  have hform : ∀ n : Nat, ((s :: ss).headD []).length = n →
      get_states (some (s :: ss)) t = (s :: ss).map (bind_row n t) := by
    intro n hn
    have : get_states (some (s :: ss)) t =
        (s :: ss).map (bind_row (((s :: ss).headD []).length) t) := rfl
    rw [this, hn]
  exact ⟨fun h18 => ⟨hform 18 h18, rfl⟩, fun h17 => ⟨hform 17 h17, rfl⟩⟩

/-- Claim C4 witness: the schema selection evaluated on one concrete
18-column row and its 17-column truncation. -/
theorem C4_column_binding_witness :
    ([row18] : List (List Cell)) ≠ [] ∧
    get_states (some [row18]) 5 = [row18].map (bind_row 18 5) ∧
    (bind_row 18 5 row18).category = Cell.num 4 ∧
    get_states (some [row17]) 5 = [row17].map (bind_row 17 5) ∧
    (bind_row 17 5 row17).category = Cell.num 0 := by
  refine ⟨by decide, ?_, ?_, ?_, ?_⟩
  · exact ((C4_column_binding [row18] 5 row18 (by decide)).1 (by decide)).1
  · exact ((C4_column_binding [row18] 5 row18 (by decide)).1 (by decide)).2.trans (by decide)
  · exact ((C4_column_binding [row17] 5 row17 (by decide)).2 (by decide)).1
  · exact ((C4_column_binding [row17] 5 row17 (by decide)).2 (by decide)).2

/-- Claim C5: a successful fetch at time `t0` with lifetime `e` caches
the token with expiry `t0 + e − 300`; a later call at `t` strictly before
that instant returns the cached token with no network request, and a call
at `t` at-or-after it re-fetches (the real token expiry being
`T = t0 + e`, reuse happens exactly at `t < T − 300`). -/
theorem C5_token_cache_lifecycle (tok : String) (t0 e t : ℚ)
    (resp2 : Except Nat TokenResponse) (htok : tok ≠ "")
    (hexp : t0 + e - 300 ≠ 0) :
    fetch_token t0 (.ok ⟨tok, some e⟩) =
      .ok (tok, ⟨some tok, some (t0 + e - 300)⟩, true) ∧
    (t < t0 + e - 300 →
      get_access_token ⟨some tok, some (t0 + e - 300)⟩ t resp2 =
        .ok (tok, ⟨some tok, some (t0 + e - 300)⟩, false)) ∧
    (t0 + e - 300 ≤ t →
      get_access_token ⟨some tok, some (t0 + e - 300)⟩ t resp2 =
        fetch_token t resp2) := by
  refine ⟨rfl, ?_, ?_⟩
  · intro hlt
    unfold get_access_token
    have hc : (truthy_token (some tok) && truthy_expiry (some (t0 + e - 300)) &&
        decide (t < (some (t0 + e - 300)).getD 0)) = true := by
      simp [truthy_token, truthy_expiry, htok, hexp, hlt]
    rw [if_pos hc]
    rfl
  · intro hge
    unfold get_access_token
    have hc : (truthy_token (some tok) && truthy_expiry (some (t0 + e - 300)) &&
        decide (t < (some (t0 + e - 300)).getD 0)) = false := by
      simp [not_lt.2 hge]
    rw [if_neg (fun h => Bool.false_ne_true (hc.symm.trans h))]

/-- Claim C5 witness: with a token fetched at `t0 = 1000` carrying
`expires_in = 1800` (cached expiry 2500), a call at `t = 1200` reuses the
cache and a call at `t = 2600` re-fetches (here hitting an auth error). -/
theorem C5_token_cache_lifecycle_witness :
    ("abc" : String) ≠ "" ∧ ((1000 : ℚ) + 1800 - 300) ≠ 0 ∧
    get_access_token ⟨some "abc", some (1000 + 1800 - 300)⟩ 1200 (.error 500) =
      .ok ("abc", ⟨some "abc", some (1000 + 1800 - 300)⟩, false) ∧
    get_access_token ⟨some "abc", some (1000 + 1800 - 300)⟩ 2600 (.error 500) =
      fetch_token 2600 (.error 500) := by
  refine ⟨by decide, by decide, ?_, ?_⟩
  · exact (C5_token_cache_lifecycle "abc" 1000 1800 1200 (.error 500)
      (by decide) (by decide)).2.1 (by decide)
  · exact (C5_token_cache_lifecycle "abc" 1000 1800 2600 (.error 500)
      (by decide) (by decide)).2.2 (by decide)

/-- Claim C8: an authenticated data request answered with HTTP 429
raises the rate-limit error carrying the header's retry-after seconds
(60 when the header is absent), after exactly one GET — the client never
retries or backs off. -/
theorem C8_rate_limit_error {β : Type} (tok : String) (resp : HttpResponse β)
    (h429 : resp.status = 429) :
    make_request (.ok tok) resp =
      (.error (.rateLimited (resp.retryAfterHeader.getD 60)), 1) := by
  unfold make_request
  rw [if_pos]
  simp [h429]

/-- Claim C8 witness: a concrete 429 response without the retry-after
header yields the default 60 seconds, and one with the header carries its
value; both after a single GET. -/
theorem C8_rate_limit_error_witness :
    (⟨429, none, ()⟩ : HttpResponse Unit).status = 429 ∧
    make_request (.ok "tok") (⟨429, none, ()⟩ : HttpResponse Unit) =
      (.error (.rateLimited 60), 1) ∧
    make_request (.ok "tok") (⟨429, some 120, ()⟩ : HttpResponse Unit) =
      (.error (.rateLimited 120), 1) :=
  ⟨rfl, (C8_rate_limit_error "tok" ⟨429, none, ()⟩ rfl).trans rfl,
    (C8_rate_limit_error "tok" ⟨429, some 120, ()⟩ rfl).trans rfl⟩

/-- Claim C9: whenever the underlying authenticated request of an
auxiliary fetch fails — with an auth failure, a rate-limit error or any
HTTP error — `get_flights_interval`, `get_arrivals` and `get_departures`
all swallow the failure and return the empty result. -/
theorem C9_aux_swallow (tokenResult : Except ApiError String)
    (resp : HttpResponse (Option (List FlightRecord))) (airport : String)
    (b e : Int) (err : ApiError)
    (hfail : (make_request tokenResult resp).1 = .error err) :
    get_flights_interval tokenResult b e resp = [] ∧
    get_arrivals tokenResult airport b e resp = [] ∧
    get_departures tokenResult airport b e resp = [] := by
  refine ⟨?_, ?_, ?_⟩
  · unfold get_flights_interval
    rw [hfail]
  · unfold get_arrivals
    rw [hfail]
  · unfold get_departures
    rw [hfail]

/-- Claim C9 witness: with a failed token acquisition the three auxiliary
fetches all return the empty result, even for a well-formed response
body. -/
theorem C9_aux_swallow_witness :
    (make_request (.error (.authFailure 401))
        (⟨200, none, some [[("icao24", Cell.str "a1")]]⟩ :
          HttpResponse (Option (List FlightRecord)))).1 =
      .error (.authFailure 401) ∧
    (get_flights_interval (.error (.authFailure 401)) 0 86400
        ⟨200, none, some [[("icao24", Cell.str "a1")]]⟩ = [] ∧
     get_arrivals (.error (.authFailure 401)) "KJFK" 0 86400
        ⟨200, none, some [[("icao24", Cell.str "a1")]]⟩ = [] ∧
     get_departures (.error (.authFailure 401)) "KJFK" 0 86400
        ⟨200, none, some [[("icao24", Cell.str "a1")]]⟩ = []) :=
  ⟨rfl, C9_aux_swallow (.error (.authFailure 401))
      ⟨200, none, some [[("icao24", Cell.str "a1")]]⟩ "KJFK" 0 86400
      (.authFailure 401) rfl⟩

/-- Claim C10: when a successful token response omits `expires_in`, the
token is cached with expiry `now + 1500` (the 1800-second default minus
the 300-second margin) and returned — the response is not rejected and
the token is not treated as expired. -/
theorem C10_default_expiry (st : ClientState) (now : ℚ) (tok : String)
    (hmiss : (truthy_token st.access_token && truthy_expiry st.token_expires_at &&
        decide (now < st.token_expires_at.getD 0)) = false) :
    get_access_token st now (.ok ⟨tok, none⟩) =
      .ok (tok, ⟨some tok, some (now + 1500)⟩, true) := by
  unfold get_access_token
  rw [if_neg (by simp [hmiss])]
  show fetch_token now (.ok ⟨tok, none⟩) = _
  unfold fetch_token
  have : now + (1800 : ℚ) - 300 = now + 1500 := by ring
  simp only [Option.getD_none]
  rw [this]

/-- Claim C10 witness: with an empty cache at `now = 0`, a token response
without `expires_in` is cached with expiry 1500. -/
theorem C10_default_expiry_witness :
    (truthy_token (none : Option String) && truthy_expiry (none : Option ℚ) &&
        decide ((0 : ℚ) < (none : Option ℚ).getD 0)) = false ∧
    get_access_token ⟨none, none⟩ 0 (.ok ⟨"x", none⟩) =
      .ok ("x", ⟨some "x", some ((0 : ℚ) + 1500)⟩, true) :=
  ⟨by decide, C10_default_expiry ⟨none, none⟩ 0 "x" (by decide)⟩

end OpenSky
